import Mathlib

/-!
Shallow embedding of the raspizza edge perception pipeline:
`ModelInterpreter.{h,cpp}` (TensorFlow Lite inference adapter),
`CameraHandler.{h,cpp}` (libcamera capture session manager and completion
dispatcher), and the consumer callback `processFrameAndInfer` in the main
translation unit.

Machine floats (`float`/`double` in the C++) are modelled as exact rationals
(`ℚ`): every arithmetic fact proved here involves only values that IEEE
binary32/binary64 represent and combine exactly (small integers, halves,
multiplication by zero, exact widening of bytes), so the rational model agrees
with the float semantics on the claims at issue.
-/

namespace Raspizza

/-! ### Data model of the inference adapter (src/src/ModelInterpreter.h) -/

/-- Mirror of `struct Detection { int class_id; float confidence; }`
(ModelInterpreter.h lines 16-20). -/
structure Detection where
  class_id : ℤ
  confidence : ℚ
deriving DecidableEq, Repr

/-- The subset of `TfLiteType` the adapter branches on: `kTfLiteUInt8`,
`kTfLiteFloat32`, `kTfLiteNoType` (the header default), and a catch-all
for every other enumerator. -/
inductive TfLiteTy
  | uint8
  | float32
  | noType
  | otherTy
deriving DecidableEq, Repr

/-- A TfLite output tensor as the adapter sees it: the dimension array
`dims->data` (whose length models `dims->size`), the element type, the raw
data viewed through `typed_output_tensor<uint8_t>` respectively
`typed_output_tensor<float>` (total functions so that what the adapter reads
is recorded separately in the read trace), and the model-declared
quantization parameters (`TfLiteTensor::params`), which the adapter never
consults. -/
structure OutputTensor where
  dims : List ℤ
  typ : TfLiteTy
  byteData : ℕ → ℕ
  floatData : ℕ → ℚ
  quant_scale : ℚ
  quant_zero : ℤ

/-- Read of `dims->data[i]`.  An out-of-bounds index returns an arbitrary
value (0 here); whether such a read happens at all is tracked by the
`dimsReads` trace of `postProcess`, which is what the safety claims are
about. -/
def dimsGet (dims : List ℤ) (i : ℕ) : ℤ :=
  dims.getD i 0

/-- Result of the output post-processing stage of `runInference`, together
with an access/effect trace: the detections returned, whether an error was
reported on stderr, the list of indices read from `dims->data`, and the list
of indices read from the tensor's data buffer. -/
structure InferResult where
  detections : List Detection
  errorLogged : Bool
  dimsReads : List ℕ
  dataReads : List ℕ
deriving DecidableEq, Repr

/-- Output post-processing of `ModelInterpreter::runInference`
(ModelInterpreter.cpp lines 122-160), parametrised by the member fields
`model_output_scale_` and `model_output_zero_`:

* line 133: `int num_classes = output_tensor->dims->data[1];` — note this
  read happens before the shape validation;
* line 135: `if (output_tensor->dims->size != 2 || output_tensor->dims->data[0] != 1)`
  — `||` short-circuits, so `data[0]` is read only when `size == 2`;
* lines 141-149: byte branch, `confidence = model_output_scale_ *
  (static_cast<int>(qval) - model_output_zero_)`;
* lines 150-157: float branch, `confidence = raw_predictions_data[class_id]`;
* any other element type falls through both branches and returns the empty
  `detections` vector with no error message. -/
def postProcess (scale : ℚ) (zero : ℤ) (t : OutputTensor) : InferResult :=
  let num_classes : ℤ := dimsGet t.dims 1
  let shapeReads : List ℕ := 1 :: (if t.dims.length = 2 then [0] else [])
  if t.dims.length ≠ 2 ∨ dimsGet t.dims 0 ≠ 1 then
    ⟨[], true, shapeReads, []⟩
  else
    match t.typ with
    | .uint8 =>
        ⟨(List.range num_classes.toNat).map
            (fun (k : ℕ) => ⟨(k : ℤ), scale * ((t.byteData k : ℤ) - zero)⟩),
         false, shapeReads, List.range num_classes.toNat⟩
    | .float32 =>
        ⟨(List.range num_classes.toNat).map
            (fun (k : ℕ) => ⟨(k : ℤ), t.floatData k⟩),
         false, shapeReads, List.range num_classes.toNat⟩
    | _ => ⟨[], false, shapeReads, []⟩

/-- Value of the member `model_output_scale_` when `runInference` runs: the
header initialises it to 0 (ModelInterpreter.h line 54) and neither `init()`
nor any other member function ever assigns it. -/
def model_output_scale_runtime : ℚ := 0

/-- Value of the member `model_output_zero_` when `runInference` runs: the
header initialises it to 0 (ModelInterpreter.h line 55) and no member
function ever assigns it. -/
def model_output_zero_runtime : ℤ := 0

/-- The output stage of `runInference` as actually executed: `postProcess`
with the member quantization fields, which still hold their header
initialisers. -/
def runInferenceOutput (t : OutputTensor) : InferResult :=
  postProcess model_output_scale_runtime model_output_zero_runtime t

/-! ### Input marshaling (ModelInterpreter.cpp lines 96-112) -/

/-- Contents written into the model's input tensor. -/
inductive InputTensorContent
  | bytes (l : List ℕ)
  | floats (l : List ℚ)
  | unsupported
deriving Repr

/-- A sequential copy loop writing `f 0, f 1, ..., f (n-1)` into a fresh
buffer, in increasing index order — the shape shared by the `memcpy` on the
byte path and the widening `for` loop on the float path. -/
def copyLoop (f : ℕ → α) : ℕ → List α
  | 0 => []
  | n + 1 => copyLoop f n ++ [f n]

/-- Input marshaling of `runInference` (ModelInterpreter.cpp lines 96-112),
parametrised by the member fields it can see: the input element type, the
input dimensions, and the input quantization members `model_input_scale_`
and `model_input_zero_` (present in the object, line 52-53 of the header).
The image is a byte source `image_data[i]`.

* `kTfLiteUInt8`: `memcpy` of `width*height*channels` bytes (lines 98-99);
* `kTfLiteFloat32`: `input_tensor_ptr[i] = static_cast<float>(image_data[i])`
  for `i < width*height*channels` (lines 104-106) — `uint8` → `float32`
  widening is exact, so the rational value is the byte value itself;
* any other input type: error message and early return (lines 110-111). -/
def marshalInput (ty : TfLiteTy) (w h c : ℤ) (in_scale : ℚ) (in_zero : ℤ)
    (image : ℕ → ℕ) : InputTensorContent :=
  let n := (w * h * c).toNat
  match ty with
  | .uint8 => .bytes (copyLoop image n)
  | .float32 => .floats (copyLoop (fun i => ((image i : ℤ) : ℚ)) n)
  | _ => .unsupported

/-! ### Consumer-side best-detection selection
(`processFrameAndInfer`, main translation unit) -/

/-- The selection loop of `processFrameAndInfer`:
`int argmax = 0; double max_confidence = 0;` then for each index `i`,
`if (detections[i].confidence > max_confidence) { max_confidence = ...;
argmax = i; }`.  `selectLoop ds i argmax maxc` runs the loop over the
remaining detections `ds` starting at index `i`, returning the final
`argmax`. -/
def selectLoop : List Detection → ℕ → ℕ → ℚ → ℕ
  | [], _, argmax, _ => argmax
  | d :: rest, i, argmax, maxc =>
      if maxc < d.confidence then selectLoop rest (i + 1) i d.confidence
      else selectLoop rest (i + 1) argmax maxc

/-- The index reported by `processFrameAndInfer` as the best class
(`class_labels[argmax]`), with the loop's initial values `argmax = 0`,
`max_confidence = 0`. -/
def bestIndex (ds : List Detection) : ℕ :=
  selectLoop ds 0 0 0

/-! ### Capture session manager: request/buffer binding
(`CameraHandler::init`, CameraHandler.cpp lines 92-103) -/

/-- The request-creation loop of `CameraHandler::init`:

```
for (unsigned int i = 0; i < bufferCount; ++i) {
    ... request->addBuffer(stream_, allocator_->buffers(stream_)[i++].get()) ...
    requests_.push_back(std::move(request));
}
```

Each iteration binds buffer index `i`, then `i++` inside the subscript and
`++i` in the loop header together advance `i` by 2.  `bindLoop i count`
returns the buffer indices bound to the successively created requests when
the loop runs from counter value `i` against negotiated buffer count
`count`; the binding performed at counter value `i` uses
`allocator_->buffers(stream_)[i]`. -/
def bindLoop (i count : ℕ) : List ℕ :=
  if h : i < count then i :: bindLoop (i + 2) count else []
termination_by count - i
decreasing_by omega

/-- Buffer indices bound, request by request, after a successful `init`
whose negotiated (read-back) buffer count is `count`: the loop starts at
`i = 0`.  The number of requests in `requests_` is the length of this
list. -/
def initRequestBuffers (count : ℕ) : List ℕ :=
  bindLoop 0 count

/-! ### Completion dispatcher
(`CameraHandler::requestComplete`, CameraHandler.cpp lines 135-208) -/

/-- Pixel formats the dispatcher branches on: `formats::NV12`,
`formats::MJPEG`, and anything else. -/
inductive PixelFormatKind
  | nv12
  | mjpeg
  | otherFmt
deriving DecidableEq, Repr

/-- The environment of one invocation of the completion callback: whether
`request->status() == Request::RequestComplete`, whether the `mmap` call
succeeds, the stream's configured pixel format, whether the MJPEG
`cv::imdecode` produces a non-empty image, and whether `frame_callback_`
is non-null. -/
structure CompletionEnv where
  statusComplete : Bool
  mmapOk : Bool
  format : PixelFormatKind
  decodeOk : Bool
  hasCallback : Bool
deriving DecidableEq, Repr

/-- Observable events of one `requestComplete` invocation, in program
order. -/
inductive Event
  | mmapAttempt
  | munmapCall
  | frameForward
  | reuseCall
  | queueCall
  | errorLog
deriving DecidableEq, Repr

/-- The `bailout` epilogue (CameraHandler.cpp lines 204-207): conditional
`munmap` when `mem != MAP_FAILED` (i.e. exactly when a mapping succeeded),
then unconditional `request->reuse(Request::ReuseBuffers)` and
`camera_->queueRequest(request)`. -/
def bailoutEvents (memMapped : Bool) : List Event :=
  (if memMapped then [.munmapCall] else []) ++ [.reuseCall, .queueCall]

/-- Event trace of one invocation of `CameraHandler::requestComplete`
(CameraHandler.cpp lines 135-208), following the code path by path:

* status not `RequestComplete` (line 200): report the failure and fall
  through to `bailout` with `mem` still `MAP_FAILED`;
* `mmap` fails (line 162): report, `goto bailout` with `mem = MAP_FAILED`;
* NV12 (lines 169-176): convert, forward the frame when the callback is
  set, fall through to `bailout` with the mapping live;
* MJPEG decode failure (line 181): report, `goto bailout`, mapping live;
* MJPEG decode success: forward the frame when the callback is set, fall
  through to `bailout`, mapping live;
* any other pixel format (line 187): report, `goto bailout`, mapping
  live. -/
def requestComplete (e : CompletionEnv) : List Event :=
  if e.statusComplete then
    [Event.mmapAttempt] ++
    (if e.mmapOk then
      (match e.format with
       | .nv12 =>
           (if e.hasCallback then [Event.frameForward] else []) ++
           bailoutEvents true
       | .mjpeg =>
           if e.decodeOk then
             (if e.hasCallback then [Event.frameForward] else []) ++
             bailoutEvents true
           else [Event.errorLog] ++ bailoutEvents true
       | .otherFmt => [Event.errorLog] ++ bailoutEvents true)
     else [Event.errorLog] ++ bailoutEvents false)
  else [Event.errorLog] ++ bailoutEvents false

/-! ### Helper lemmas -/

/-- A sequential copy loop writes exactly the mapped index range. -/
theorem copyLoop_eq_map (f : ℕ → α) (n : ℕ) :
    copyLoop f n = (List.range n).map f := by
  induction n with
  | zero => rfl
  | succ n ih => simp [copyLoop, List.range_succ, ih]

/-- If every remaining confidence is at most the running maximum, the
strict-greater-than selection loop never updates `argmax`. -/
theorem selectLoop_of_all_le (ds : List Detection) :
    ∀ i a m, (∀ d ∈ ds, d.confidence ≤ m) → selectLoop ds i a m = a := by
  induction ds with
  | nil => intro i a m _; rfl
  | cons d rest ih =>
      intro i a m hall
      have hd : d.confidence ≤ m := hall d (List.mem_cons_self d rest)
      have hlt : ¬ (m < d.confidence) := not_lt.mpr hd
      simp only [selectLoop, if_neg hlt]
      exact ih (i + 1) a m (fun x hx => hall x (List.mem_cons_of_mem d hx))

/-! ### Concrete tensors used as inputs to the theorems -/

/-- Scenario A of the specification: byte output tensor of shape `[1, 4]`
with raw values `[10, 200, 0, 0]` and model-declared quantization
scale `0.5`, zero-point `50`. -/
def scenarioA : OutputTensor :=
  { dims := [1, 4], typ := .uint8,
    byteData := fun i => [10, 200, 0, 0].getD i 0,
    floatData := fun _ => 0,
    quant_scale := 1/2, quant_zero := 50 }

/-- An output tensor of rank 1 (`dims->size = 1`, shape `[7]`). -/
def rank1Tensor : OutputTensor :=
  { dims := [7], typ := .float32,
    byteData := fun _ => 0, floatData := fun _ => 0,
    quant_scale := 0, quant_zero := 0 }

/-- Scenario C of the specification: output tensor of invalid rank-3
shape `[1, 3, 2]`. -/
def rank3Tensor : OutputTensor :=
  { dims := [1, 3, 2], typ := .float32,
    byteData := fun _ => 0, floatData := fun _ => 0,
    quant_scale := 0, quant_zero := 0 }

/-- A valid float32 output tensor of shape `[1, 3]` with raw values
`[2, -5, 7]`. -/
def floatTensor3 : OutputTensor :=
  { dims := [1, 3], typ := .float32,
    byteData := fun _ => 0,
    floatData := fun i => [2, -5, 7].getD i 0,
    quant_scale := 0, quant_zero := 0 }

/-- A valid-shape output tensor whose element type is neither `kTfLiteUInt8`
nor `kTfLiteFloat32` (e.g. `kTfLiteInt32`). -/
def int32Tensor : OutputTensor :=
  { dims := [1, 4], typ := .otherTy,
    byteData := fun _ => 0, floatData := fun _ => 0,
    quant_scale := 0, quant_zero := 0 }

/-! ### Claims -/

/-- C1: the claim says that for byte output tensors `runInference` computes
`confidence = declared_scale * (raw − declared_zero_point)`, so Scenario A
(`raw = [10, 200, 0, 0]`, scale `0.5`, zero `50`) should yield
`[-20, 75, -25, -25]`.  The code instead multiplies by the member fields
`model_output_scale_`/`model_output_zero_`, which are initialised to 0 in
the header and never assigned from the model, so every confidence it returns
is 0.  This theorem evaluates the code's output stage at the failing input
(first conjunct: the code returns all-zero confidences) and contrasts it
with the dequantization the model's declared parameters prescribe (second
conjunct: those parameters yield `[-20, 75, -25, -25]`). -/
theorem C1_dequantization_zeroed :
    (runInferenceOutput scenarioA).detections
      = [⟨0, 0⟩, ⟨1, 0⟩, ⟨2, 0⟩, ⟨3, 0⟩] ∧
    ([10, 200, 0, 0] : List ℕ).map
        (fun r => scenarioA.quant_scale * ((r : ℤ) - scenarioA.quant_zero))
      = [-20, 75, -25, -25] := by
  constructor
  · norm_num [runInferenceOutput, postProcess, scenarioA, dimsGet,
      model_output_scale_runtime, model_output_zero_runtime]
    decide
  · norm_num [scenarioA]

/-- C2: the claim says that after a successful `init` there is exactly one
CaptureRequest per allocated buffer and the request count equals the
negotiated buffer count.  Because the binding loop increments its counter
twice per iteration (`i++` inside the buffer subscript plus `++i` in the
loop header), at the negotiated count 4 (the value libcamera adjusts the
hint to, per the code's own comment) `init` creates only two requests,
bound to buffers 0 and 2; buffers 1 and 3 are bound to no request. -/
theorem C2_request_binding_skips_buffers :
    initRequestBuffers 4 = [0, 2] ∧
    (initRequestBuffers 4).length ≠ 4 ∧
    (initRequestBuffers 4).count 1 = 0 ∧
    (initRequestBuffers 4).count 3 = 0 := by
  have h : initRequestBuffers 4 = [0, 2] := by
    simp [initRequestBuffers, bindLoop]
  refine ⟨h, ?_, ?_, ?_⟩ <;> rw [h] <;> decide

/-- C3: on every invocation of the completion callback — error status,
mmap failure, decode failure, unsupported pixel format, or full success —
the request is reused exactly once and requeued exactly once, with the
reuse preceding the requeue, before the callback returns. -/
theorem C3_requeue_exactly_once (e : CompletionEnv) :
    (requestComplete e).count .reuseCall = 1 ∧
    (requestComplete e).count .queueCall = 1 ∧
    (requestComplete e).indexOf .reuseCall
      < (requestComplete e).indexOf .queueCall := by
  obtain ⟨s, m, f, d, c⟩ := e
  cases s <;> cases m <;> cases f <;> cases d <;> cases c <;> decide

/-- C4: in every completion-callback invocation, the number of `munmap`
calls is exactly one when the mapping was attempted and succeeded
(completion successful and `mmap` returned a valid address), and exactly
zero when the mapping failed or was never attempted. -/
theorem C4_munmap_pairing (e : CompletionEnv) :
    (requestComplete e).count .munmapCall
      = (if e.statusComplete && e.mmapOk then 1 else 0) := by
  obtain ⟨s, m, f, d, c⟩ := e
  cases s <;> cases m <;> cases f <;> cases d <;> cases c <;> decide

/-- C5 counterexample: the claim, as stated, asserts that every output
tensor failing shape validation yields an empty list *and* no read outside
the tensor's dimension array.  At a rank-1 tensor (shape `[7]`) the second
conjunct is false: `num_classes = dims->data[1]` is executed before the
shape check, reading index 1 of the one-element dims array. -/
theorem C5_oob_dims_read :
    ¬ ((runInferenceOutput rank1Tensor).detections = [] ∧
       ∀ i ∈ (runInferenceOutput rank1Tensor).dimsReads,
         i < rank1Tensor.dims.length) := by
  decide

/-- C5 (amended): for every output tensor whose shape is not rank 2 with
leading dimension 1, `runInference` returns an empty Detection list and
reads no element of the tensor's data buffer; and provided the rank is at
least 2 — which covers the spec's rank-3 `[1, 3, 2]` scenario — every
index it reads from the dims array is within bounds. -/
theorem C5_invalid_shape_safe (s : ℚ) (z : ℤ) (t : OutputTensor)
    (hinv : t.dims.length ≠ 2 ∨ dimsGet t.dims 0 ≠ 1) :
    (postProcess s z t).detections = [] ∧
    (postProcess s z t).dataReads = [] ∧
    (2 ≤ t.dims.length →
      ∀ i ∈ (postProcess s z t).dimsReads, i < t.dims.length) := by
  simp only [postProcess]
  rw [if_pos hinv]
  refine ⟨rfl, rfl, ?_⟩
  intro hlen i hi
  by_cases h2 : t.dims.length = 2
  · rw [if_pos h2] at hi
    simp only [List.mem_cons, List.mem_singleton, List.not_mem_nil,
      or_false] at hi
    rcases hi with rfl | rfl <;> omega
  · rw [if_neg h2] at hi
    simp only [List.mem_cons, List.not_mem_nil, or_false] at hi
    subst hi
    omega

/-- C5 witness: the amended claim instantiated at the spec's Scenario C
tensor of shape `[1, 3, 2]`. -/
theorem C5_witness :
    (postProcess 0 0 rank3Tensor).detections = [] ∧
    (postProcess 0 0 rank3Tensor).dataReads = [] ∧
    (2 ≤ rank3Tensor.dims.length →
      ∀ i ∈ (postProcess 0 0 rank3Tensor).dimsReads,
        i < rank3Tensor.dims.length) :=
  C5_invalid_shape_safe 0 0 rank3Tensor (by decide)

/-- C6: when the completion status is not successful, the dispatcher never
attempts to map the buffer, forwards no frame to the inference stage, and
still requeues the request exactly once. -/
theorem C6_error_status_skips_pipeline (e : CompletionEnv)
    (h : e.statusComplete = false) :
    (requestComplete e).count .mmapAttempt = 0 ∧
    (requestComplete e).count .frameForward = 0 ∧
    (requestComplete e).count .queueCall = 1 := by
  simp [requestComplete, h, bailoutEvents]

/-- C6 witness: a concrete errored completion (mapping would have
succeeded, NV12 stream, callback installed). -/
theorem C6_witness :
    (requestComplete ⟨false, true, .nv12, true, true⟩).count .mmapAttempt = 0 ∧
    (requestComplete ⟨false, true, .nv12, true, true⟩).count .frameForward = 0 ∧
    (requestComplete ⟨false, true, .nv12, true, true⟩).count .queueCall = 1 :=
  C6_error_status_skips_pipeline ⟨false, true, .nv12, true, true⟩ rfl

/-- C7: input marshaling is independent of the input quantization members
(no input scale/zero-point is applied on either path); on the byte path the
input tensor receives a verbatim copy of the first
`width*height*channels` image bytes, and on the float path element `i` is
the exact numeric widening of image byte `i`. -/
theorem C7_input_marshaling (w h c : ℤ) (s s' : ℚ) (z z' : ℤ)
    (image : ℕ → ℕ) :
    (∀ ty, marshalInput ty w h c s z image = marshalInput ty w h c s' z' image) ∧
    (∃ l, marshalInput .uint8 w h c s z image = .bytes l ∧
       l.length = (w * h * c).toNat ∧
       ∀ i (hi : i < l.length), l.get ⟨i, hi⟩ = image i) ∧
    (∃ l, marshalInput .float32 w h c s z image = .floats l ∧
       l.length = (w * h * c).toNat ∧
       ∀ i (hi : i < l.length), l.get ⟨i, hi⟩ = ((image i : ℤ) : ℚ)) := by
  refine ⟨fun ty => rfl, ⟨_, rfl, ?_, ?_⟩, ⟨_, rfl, ?_, ?_⟩⟩
  · simp [marshalInput, copyLoop_eq_map]
  · intro i hi
    simp only [copyLoop_eq_map] at hi
    simp [copyLoop_eq_map, List.get_eq_getElem]
  · simp [marshalInput, copyLoop_eq_map]
  · intro i hi
    simp only [copyLoop_eq_map] at hi
    simp [copyLoop_eq_map, List.get_eq_getElem]

/-- C7 witness: marshaling a concrete 2-byte image (`image i = i + 5`)
with input dimensions `2 × 1 × 1` and two distinct input quantization
settings. -/
theorem C7_witness :
    (∀ ty, marshalInput ty 2 1 1 3 7 (fun i => i + 5)
        = marshalInput ty 2 1 1 0 0 (fun i => i + 5)) ∧
    (∃ l, marshalInput .uint8 2 1 1 3 7 (fun i => i + 5) = .bytes l ∧
       l.length = ((2 : ℤ) * 1 * 1).toNat ∧
       ∀ i (hi : i < l.length), l.get ⟨i, hi⟩ = i + 5) ∧
    (∃ l, marshalInput .float32 2 1 1 3 7 (fun i => i + 5) = .floats l ∧
       l.length = ((2 : ℤ) * 1 * 1).toNat ∧
       ∀ i (hi : i < l.length), l.get ⟨i, hi⟩ = (((i + 5 : ℕ) : ℤ) : ℚ)) :=
  C7_input_marshaling 2 1 1 3 0 7 0 (fun i => i + 5)

/-- C8: for every supported output tensor (byte or float) passing shape
validation with class count `n = dims->data[1]`, the output stage returns
exactly `n` Detections whose class ids are `0, 1, ..., n-1` in ascending
order, and on the float path the confidence of Detection `k` is the raw
float value at index `k`. -/
theorem C8_detections_ascending (s : ℚ) (z : ℤ) (t : OutputTensor)
    (hty : t.typ = .uint8 ∨ t.typ = .float32)
    (hlen : t.dims.length = 2) (hbatch : dimsGet t.dims 0 = 1)
    (hn : 0 ≤ dimsGet t.dims 1) :
    (((postProcess s z t).detections.length : ℤ) = dimsGet t.dims 1) ∧
    (∀ k (hk : k < (postProcess s z t).detections.length),
       ((postProcess s z t).detections.get ⟨k, hk⟩).class_id = (k : ℤ)) ∧
    (t.typ = .float32 →
      ∀ k (hk : k < (postProcess s z t).detections.length),
       ((postProcess s z t).detections.get ⟨k, hk⟩).confidence
          = t.floatData k) := by
  have hcond : ¬ (t.dims.length ≠ 2 ∨ dimsGet t.dims 0 ≠ 1) := by
    push_neg
    exact ⟨hlen, hbatch⟩
  rcases hty with hu | hf
  · have hpp : postProcess s z t =
        ⟨(List.range (dimsGet t.dims 1).toNat).map
            (fun (k : ℕ) => ⟨(k : ℤ), s * ((t.byteData k : ℤ) - z)⟩),
         false, 1 :: (if t.dims.length = 2 then [0] else []),
         List.range (dimsGet t.dims 1).toNat⟩ := by
      simp only [postProcess]
      rw [if_neg hcond, hu]
    rw [hpp]
    refine ⟨?_, ?_, ?_⟩
    · simp [Int.toNat_of_nonneg hn]
    · intro k hk
      simp [List.get_eq_getElem]
    · intro hf2
      rw [hu] at hf2
      cases hf2
  · have hpp : postProcess s z t =
        ⟨(List.range (dimsGet t.dims 1).toNat).map
            (fun (k : ℕ) => ⟨(k : ℤ), t.floatData k⟩),
         false, 1 :: (if t.dims.length = 2 then [0] else []),
         List.range (dimsGet t.dims 1).toNat⟩ := by
      simp only [postProcess]
      rw [if_neg hcond, hf]
    rw [hpp]
    refine ⟨?_, ?_, ?_⟩
    · simp [Int.toNat_of_nonneg hn]
    · intro k hk
      simp [List.get_eq_getElem]
    · intro _ k hk
      simp [List.get_eq_getElem]

/-- C8 witness: the float tensor of shape `[1, 3]` with raw values
`[2, -5, 7]`. -/
theorem C8_witness :
    (((postProcess 0 0 floatTensor3).detections.length : ℤ)
        = dimsGet floatTensor3.dims 1) ∧
    (∀ k (hk : k < (postProcess 0 0 floatTensor3).detections.length),
       ((postProcess 0 0 floatTensor3).detections.get ⟨k, hk⟩).class_id
          = (k : ℤ)) ∧
    (floatTensor3.typ = .float32 →
      ∀ k (hk : k < (postProcess 0 0 floatTensor3).detections.length),
       ((postProcess 0 0 floatTensor3).detections.get ⟨k, hk⟩).confidence
          = floatTensor3.floatData k) :=
  C8_detections_ascending 0 0 floatTensor3 (Or.inr rfl) rfl (by decide)
    (by decide)

/-- C9: an output tensor whose element type is neither uint8 nor float32,
even though it passes shape validation, yields an empty Detection list with
no error reported — both type branches are skipped silently. -/
theorem C9_unsupported_type_silent (s : ℚ) (z : ℤ) (t : OutputTensor)
    (hty1 : t.typ ≠ .uint8) (hty2 : t.typ ≠ .float32)
    (hlen : t.dims.length = 2) (hbatch : dimsGet t.dims 0 = 1) :
    (postProcess s z t).detections = [] ∧
    (postProcess s z t).errorLogged = false := by
  have hcond : ¬ (t.dims.length ≠ 2 ∨ dimsGet t.dims 0 ≠ 1) := by
    push_neg
    exact ⟨hlen, hbatch⟩
  simp only [postProcess]
  rw [if_neg hcond]
  cases h : t.typ with
  | uint8 => exact absurd h hty1
  | float32 => exact absurd h hty2
  | noType => exact ⟨rfl, rfl⟩
  | otherTy => exact ⟨rfl, rfl⟩

/-- C9 witness: a valid-shape tensor of a non-byte, non-float element
type. -/
theorem C9_witness :
    (postProcess 0 0 int32Tensor).detections = [] ∧
    (postProcess 0 0 int32Tensor).errorLogged = false :=
  C9_unsupported_type_silent 0 0 int32Tensor (by decide) (by decide) rfl
    (by decide)

/-- C10: the consumer's best-detection selection starts from `argmax = 0`,
`max_confidence = 0` and updates only on strict `>`, so whenever no
confidence is strictly positive it reports index 0, regardless of which
confidence is actually largest. -/
theorem C10_nonpositive_reports_first (ds : List Detection)
    (hall : ∀ d ∈ ds, d.confidence ≤ 0) :
    bestIndex ds = 0 :=
  selectLoop_of_all_le ds 0 0 0 hall

/-- C10 witness: two detections with negative confidences whose largest
confidence is at index 1; the selection still reports index 0. -/
theorem C10_witness :
    bestIndex [⟨0, -3⟩, ⟨1, -1⟩] = 0 :=
  C10_nonpositive_reports_first [⟨0, -3⟩, ⟨1, -1⟩]
    (by intro d hd; fin_cases hd <;> norm_num)

end Raspizza
